import Mathlib

/-!
Verification development for the helpmybarber repository.

The development shallowly embeds the two core components of the web app:

* the adaptive byte-budget image compression engine
  (`compressImage` in `src/web/src/utils/imageCompression.ts`,
  also appearing concatenated after `ImageUpload.tsx`), and
* the generation workflow of the page component
  (`handleImageUpload`, `handleGenerateReference`, `handleGenerateAngles`
  in `src/web/src/app/page.tsx`) together with the HTTP client
  (`getErrorMessage`, `ApiService.generateHaircuts` in `src/web/src/lib/api.ts`).

Platform effects (canvas encoding, Math.sqrt, fetch, the compression call made
by the page) are modelled as explicit oracle parameters; asynchronous handlers
are split at their await points into a start step (everything up to issuing the
network request) and a resume step (applying the response to the then-current
state), which makes interleavings such as an upload racing an in-flight
request expressible.  Machine floats are modelled as exact rationals.
-/

namespace HelpMyBarber

/-! ## Compression engine (`compressImage`)

Source (imageCompression.ts):

  const compressionNeeded = targetSize / imageFile.size;
  let quality = Math.min(0.8, compressionNeeded * 1.5)
  let scale = compressionNeeded < 0.5 ? Math.sqrt(compressionNeeded * 2) : 1
  let result = await compress(quality, scale)
  while(result.size > targetSize && quality > 0.1) \x7b
      quality *= 0.7
      result = await compress(quality, scale)
  \x7d
  return result

`encode q s` is the byte length produced by the platform encoder
(`canvas.toBlob` at quality `q` after drawing at linear scale `s`); `sqrtFn`
is the platform square root.  The loop is written with an explicit fuel
argument (64, far above the at most 7 passes the quality floor allows); the
theorems show the fuel is never exhausted.  The result triple is
(final quality, final byte length, number of encode passes performed). -/

def compressLoop (encode : ℚ → ℚ → Nat) (targetSize scale : ℚ) :
    Nat → ℚ → Nat → Nat → ℚ × Nat × Nat
  | 0, quality, curSize, passes => (quality, curSize, passes)
  | fuel + 1, quality, curSize, passes =>
      if (curSize : ℚ) > targetSize ∧ quality > 1/10 then
        let q := quality * (7/10)
        compressLoop encode targetSize scale fuel q (encode q scale) (passes + 1)
      else (quality, curSize, passes)

def compressImage (encode : ℚ → ℚ → Nat) (sqrtFn : ℚ → ℚ)
    (sourceSize : Nat) (targetSize : ℚ) : ℚ × Nat × Nat :=
  let compressionNeeded : ℚ := targetSize / (sourceSize : ℚ)
  let quality : ℚ := min (4/5) (compressionNeeded * (3/2))
  let scale : ℚ := if compressionNeeded < 1/2 then sqrtFn (compressionNeeded * 2) else 1
  compressLoop encode targetSize scale 64 quality (encode quality scale) 1

/-- Loop invariant: if the entering quality is at most `(10/7)^k / 10` and at
least `k` units of fuel remain, the loop exits (it never consumes all fuel)
with either a byte length within budget or a quality at or below the floor
`0.1`, after at most `k` further encode passes. -/
theorem compressLoop_bound (encode : ℚ → ℚ → Nat) (targetSize scale : ℚ) :
    ∀ (k fuel : Nat) (quality : ℚ) (curSize passes : Nat), k ≤ fuel →
      quality ≤ (10/7) ^ k * (1/10) →
      (((compressLoop encode targetSize scale fuel quality curSize passes).2.1 : ℚ) ≤ targetSize ∨
        (compressLoop encode targetSize scale fuel quality curSize passes).1 ≤ 1/10) ∧
      (compressLoop encode targetSize scale fuel quality curSize passes).2.2 ≤ passes + k := by
  intro k
  induction k with
  | zero =>
      intro fuel quality curSize passes _ hq
      have hq' : quality ≤ 1/10 := by simpa using hq
      cases fuel with
      | zero => exact ⟨Or.inr hq', Nat.le_refl _⟩
      | succ f =>
          have hcond : ¬ ((curSize : ℚ) > targetSize ∧ quality > 1/10) := by
            rintro ⟨-, h2⟩
            exact absurd h2 (not_lt.mpr hq')
          rw [compressLoop, if_neg hcond]
          exact ⟨Or.inr hq', Nat.le_refl _⟩
  | succ k ih =>
      intro fuel quality curSize passes hk hq
      obtain ⟨f, rfl⟩ : ∃ f, fuel = f + 1 := by
        cases fuel with
        | zero => exact absurd hk (by omega)
        | succ f => exact ⟨f, rfl⟩
      by_cases hcond : (curSize : ℚ) > targetSize ∧ quality > 1/10
      · rw [compressLoop, if_pos hcond]
        have hq' : quality * (7/10) ≤ (10/7) ^ k * (1/10) := by
          have h1 : quality * (7/10) ≤ ((10/7) ^ (k + 1) * (1/10)) * (7/10) := by
            have h70 : (0:ℚ) ≤ 7/10 := by norm_num
            exact mul_le_mul_of_nonneg_right hq h70
          have h2 : ((10/7 : ℚ) ^ (k + 1) * (1/10)) * (7/10) = (10/7) ^ k * (1/10) := by
            rw [pow_succ]; ring
          calc quality * (7/10) ≤ ((10/7) ^ (k + 1) * (1/10)) * (7/10) := h1
            _ = (10/7) ^ k * (1/10) := h2
        have := ih f (quality * (7/10)) (encode (quality * (7/10)) scale) (passes + 1)
          (by omega) hq'
        refine ⟨this.1, ?_⟩
        calc (compressLoop encode targetSize scale f (quality * (7/10))
                (encode (quality * (7/10)) scale) (passes + 1)).2.2
            ≤ (passes + 1) + k := this.2
          _ = passes + (k + 1) := by omega
      · rw [compressLoop, if_neg hcond]
        push_neg at hcond
        refine ⟨?_, by show passes ≤ passes + (k + 1); omega⟩
        by_cases hsz : (curSize : ℚ) > targetSize
        · exact Or.inr (hcond hsz)
        · exact Or.inl (not_lt.mp hsz)

/-- C1: for every source size S and target budget T with 0 < T < S, and every
platform encoder and square root, `compressImage` terminates after at most 7
encode passes (it is a total function with fuel to spare) and returns output
whose byte length is at most T, or else the quality has been driven to at or
below the floor 0.1 — in which case the last-produced, possibly over-budget
output is returned. -/
theorem compressImage_budget_or_floor (encode : ℚ → ℚ → Nat) (sqrtFn : ℚ → ℚ)
    (S : Nat) (T : ℚ) (hT : 0 < T) (hTS : T < (S : ℚ)) :
    (((compressImage encode sqrtFn S T).2.1 : ℚ) ≤ T ∨
      (compressImage encode sqrtFn S T).1 ≤ 1/10) ∧
    (compressImage encode sqrtFn S T).2.2 ≤ 7 := by
  have hmin : min (4/5 : ℚ) ((T / (S : ℚ)) * (3/2)) ≤ (10/7) ^ 6 * (1/10) := by
    have h1 : min (4/5 : ℚ) ((T / (S : ℚ)) * (3/2)) ≤ 4/5 := min_le_left _ _
    have h2 : (4/5 : ℚ) ≤ (10/7) ^ 6 * (1/10) := by norm_num
    exact le_trans h1 h2
  have key := compressLoop_bound encode T
    (if T / (S : ℚ) < 1/2 then sqrtFn (T / (S : ℚ) * 2) else 1)
    6 64
    (min (4/5) ((T / (S : ℚ)) * (3/2)))
    (encode (min (4/5) ((T / (S : ℚ)) * (3/2)))
      (if T / (S : ℚ) < 1/2 then sqrtFn (T / (S : ℚ) * 2) else 1))
    1 (by omega) hmin
  have hdef : compressImage encode sqrtFn S T =
      compressLoop encode T
        (if T / (S : ℚ) < 1/2 then sqrtFn (T / (S : ℚ) * 2) else 1)
        64
        (min (4/5) ((T / (S : ℚ)) * (3/2)))
        (encode (min (4/5) ((T / (S : ℚ)) * (3/2)))
          (if T / (S : ℚ) < 1/2 then sqrtFn (T / (S : ℚ) * 2) else 1))
        1 := rfl
  rw [hdef]
  exact ⟨key.1, by omega⟩

/-- Witness for C1 at concrete inputs: S = 2 bytes, T = 1 byte, an encoder
that always produces 0 bytes, the identity as square root. -/
theorem compressImage_budget_or_floor_witness :
    ((0:ℚ) < 1 ∧ (1:ℚ) < ((2:Nat) : ℚ)) ∧
    ((((compressImage (fun _ _ => 0) id 2 1).2.1 : ℚ) ≤ 1 ∨
       (compressImage (fun _ _ => 0) id 2 1).1 ≤ 1/10) ∧
     (compressImage (fun _ _ => 0) id 2 1).2.2 ≤ 7) :=
  ⟨⟨by norm_num, by norm_num⟩,
   compressImage_budget_or_floor (fun _ _ => 0) id 2 1 (by norm_num) (by norm_num)⟩

/-! ## HTTP client (`src/web/src/lib/api.ts`)

`ImageVariation`, `GenerateHaircutsResponse`, the error-message utility
`getErrorMessage` and `ApiService.generateHaircuts` are embedded directly.
The fetch call is modelled by a `FetchOutcome` parameter: the promise either
resolves with a status code and a body (whose JSON parse may fail), or
rejects with a JavaScript error value.  `JsError` distinguishes the error
classes `getErrorMessage` inspects with instanceof. -/

structure ImageVariation where
  image : String
  angle : String
  deriving DecidableEq, Repr

structure GenerateHaircutsResponse where
  success : Bool
  variations : List ImageVariation
  message : Option String
  deriving DecidableEq, Repr

inductive JsError where
  | typeError (msg : String)
  | syntaxError (msg : String)
  | plainError (msg : String)
  | nonError (display : String)
  deriving DecidableEq, Repr

/-- Tail of `getErrorMessage` after the two status checks: the
`error instanceof TypeError` test and the generic fallback. -/
def connectionOrGeneric (error : Option JsError) : String :=
  match error with
  | some (.typeError _) => "Connection failed. Please check your internet and try again."
  | _ => "Something went wrong. Please try again."

def getErrorMessage (error : Option JsError) (response : Option Nat) : String :=
  match response with
  | some status =>
      if status = 429 then "Too many requests. Please wait a minute before trying again."
      else if 500 ≤ status then "Server error. Please try again."
      else connectionOrGeneric error
  | none => connectionOrGeneric error

/-- The `Response.ok` predicate of the fetch API: status in [200, 300). -/
def responseOk (status : Nat) : Bool := 200 ≤ status && status < 300

/-- Truthiness of an optional string, as JavaScript tests it
(`data.message` is falsy when absent or empty). -/
def jsTruthy (m : Option String) : Bool :=
  match m with
  | some v => v != ""
  | none => false

inductive FetchOutcome where
  | resolved (status : Nat) (body : Except String GenerateHaircutsResponse)
  | rejected (error : JsError)

def generateHaircuts (outcome : FetchOutcome) : GenerateHaircutsResponse :=
  match outcome with
  | .rejected e =>
      { success := false, variations := [],
        message := some (getErrorMessage (some e) none) }
  | .resolved status body =>
      if responseOk status = false then
        { success := false, variations := [],
          message := some (getErrorMessage
            (some (.plainError (getErrorMessage none (some status)))) none) }
      else
        match body with
        | .error _jsonMsg =>
            { success := false, variations := [],
              message := some (getErrorMessage (some (.syntaxError _jsonMsg)) none) }
        | .ok data =>
            if data.success = false ∧ jsTruthy data.message = true then
              { success := false, variations := [], message := data.message }
            else data

/-- C5: every transport-level failure (non-2xx status, network error,
malformed JSON) is normalized to success false, empty variations and a
non-empty human-readable message, and the messages produced for HTTP 429
and for 5xx statuses are each distinct from the message produced for a
generic connectivity failure (a network error, which surfaces as a
TypeError). -/
theorem generateHaircuts_transport_failures :
    (∀ status body, responseOk status = false →
        (generateHaircuts (.resolved status body)).success = false ∧
        (generateHaircuts (.resolved status body)).variations = [] ∧
        ∃ m, (generateHaircuts (.resolved status body)).message = some m ∧ m ≠ "") ∧
    (∀ emsg, generateHaircuts (.rejected (.typeError emsg)) =
        { success := false, variations := [],
          message := some "Connection failed. Please check your internet and try again." }) ∧
    (∀ status jmsg, responseOk status = true →
        generateHaircuts (.resolved status (.error jmsg)) =
        { success := false, variations := [],
          message := some "Something went wrong. Please try again." }) ∧
    (∀ body emsg,
        (generateHaircuts (.resolved 429 body)).message ≠ none ∧
        (generateHaircuts (.resolved 429 body)).message ≠
          (generateHaircuts (.rejected (.typeError emsg))).message) ∧
    (∀ status body emsg, 500 ≤ status →
        (generateHaircuts (.resolved status body)).message ≠
          (generateHaircuts (.rejected (.typeError emsg))).message) := by
  refine ⟨?_, ?_, ?_, ?_, ?_⟩
  · intro status body hbad
    simp only [generateHaircuts, hbad, if_pos rfl]
    refine ⟨rfl, rfl, ?_⟩
    by_cases h429 : status = 429
    · subst h429
      exact ⟨_, rfl, by simp [getErrorMessage, connectionOrGeneric]⟩
    · exact ⟨_, rfl, by simp [getErrorMessage, connectionOrGeneric]⟩
  · intro emsg
    simp [generateHaircuts, getErrorMessage, connectionOrGeneric]
  · intro status jmsg hok
    simp [generateHaircuts, hok, getErrorMessage, connectionOrGeneric]
  · intro body emsg
    have hbad : responseOk 429 = false := by decide
    constructor
    · simp [generateHaircuts, hbad]
    · simp [generateHaircuts, hbad, getErrorMessage, connectionOrGeneric]
  · intro status body emsg h500
    have hbad : responseOk status = false := by
      simp only [responseOk, Bool.and_eq_false_iff, decide_eq_false_iff_not, not_lt]
      right
      omega
    simp [generateHaircuts, hbad, getErrorMessage, connectionOrGeneric, h500,
      show ¬ status = 429 by omega]

/-- Witness for C5 at concrete inputs: status 429 with an unparsable body,
status 503, and a network failure. -/
theorem generateHaircuts_transport_failures_witness :
    (responseOk 429 = false ∧
      ((generateHaircuts (.resolved 429 (.error "bad json"))).success = false ∧
       (generateHaircuts (.resolved 429 (.error "bad json"))).variations = [] ∧
       ∃ m, (generateHaircuts (.resolved 429 (.error "bad json"))).message = some m ∧
         m ≠ "")) ∧
    (500 ≤ 503 ∧
      (generateHaircuts (.resolved 503 (.error "bad json"))).message ≠
        (generateHaircuts (.rejected (.typeError "fetch failed"))).message) :=
  ⟨⟨by decide,
    generateHaircuts_transport_failures.1 429 (.error "bad json") (by decide)⟩,
   ⟨by norm_num,
    generateHaircuts_transport_failures.2.2.2.2 503 (.error "bad json") "fetch failed"
      (by norm_num)⟩⟩

/-! ## Generation workflow (`src/web/src/app/page.tsx`)

The React component state of `Home` is embedded as `HomeState`, with one
field per `useState` hook.  File bytes are abstracted as a string holding
their base64 transport encoding, so `fileToBase64` is the projection to that
field (the source reads the file with FileReader and strips the data-URL
prefix).  The compression call the page makes is an oracle
`FileData → ℚ → CompressOutcome`; its outcome mirrors the page, which
handles a resolved file, a null result (the declared type of the call site
is File-or-null) and a thrown error.

Each async handler is split at its network await point:
`handleGenerateReferenceStart` performs everything up to issuing the request
(returning the request it issues, if any), `handleGenerateReferenceResume`
applies the awaited response to the state that is current at that moment
(the React setters act on current state, so an interleaved upload is simply
a state change between the two steps).  Likewise for the angles handler. -/

structure FileData where
  name : String
  content : String
  size : Nat
  deriving DecidableEq, Repr

/-- Transport encoding of a file (base64 body, no data-URL prefix). -/
def fileToBase64 (f : FileData) : String := f.content

structure GenRequest where
  prompt : String
  imageData : String
  generateAngles : Bool
  deriving DecidableEq, Repr

inductive CompressOutcome where
  | ok (f : FileData)
  | nullFile
  | err (msg : String)
  deriving DecidableEq, Repr

structure HomeState where
  uploadedImage : Option String
  uploadedFile : Option FileData
  results : List ImageVariation
  loading : Bool
  anglesLoading : Bool
  error : Option String
  prompt : String
  deriving DecidableEq, Repr

/-- Initial values of the useState hooks of `Home`. -/
def initialHomeState : HomeState :=
  { uploadedImage := none, uploadedFile := none, results := [], loading := false,
    anglesLoading := false, error := none, prompt := "" }

/-- MAX_SIZE_BYTES = 0.5 * 1024 * 1024. -/
def MAX_SIZE_BYTES : Nat := 524288

/-- JavaScript `String.prototype.toLowerCase` (ASCII case mapping suffices
for the file-name suffixes the page tests), written by structural recursion
over the character list so that it evaluates inside the kernel. -/
def toLowerStr (s : String) : String := ⟨s.data.map Char.toLower⟩

/-- JavaScript `String.prototype.endsWith`, written via list suffix testing
so that it evaluates inside the kernel. -/
def endsWithStr (s suffix : String) : Bool := List.isSuffixOf suffix.data s.data

/-- Error message shown for a HEIC/HEIF upload. -/
def heicErrorMsg : String :=
  "HEIC images are not supported. Please convert to jpg or png"

def handleImageUpload (imageDataUrl : String) (file : FileData) (s : HomeState) :
    HomeState :=
  if (endsWithStr (toLowerStr file.name) "heic" ||
      endsWithStr (toLowerStr file.name) "heif") = true then
    { s with error := some heicErrorMsg }
  else
    { s with uploadedImage := some imageDataUrl, uploadedFile := some file,
             results := [], error := none, prompt := "" }

/-- JavaScript `a || b` on an optional string against a string literal
(`undefined` and the empty string are falsy). -/
def jsOrElse (m : Option String) (fallbackMsg : String) : String :=
  match m with
  | some v => if v = "" then fallbackMsg else v
  | none => fallbackMsg

/-- First half of `handleGenerateReference`, up to issuing the request:
guard on a held file, set loading / clear error / store the prompt, compress
when over the threshold (aborting on a null or thrown outcome), encode and
issue the request. -/
def handleGenerateReferenceStart (promptText : String)
    (compress : FileData → ℚ → CompressOutcome) (s : HomeState) :
    HomeState × Option GenRequest :=
  match s.uploadedFile with
  | none => (s, none)
  | some file =>
      let s1 : HomeState := { s with loading := true, error := none, prompt := promptText }
      if file.size > MAX_SIZE_BYTES then
        match compress file ((MAX_SIZE_BYTES : ℚ) * (9/10)) with
        | .nullFile => ({ s1 with loading := false }, none)
        | .ok compressedFile =>
            ({ s1 with uploadedFile := some compressedFile },
             some { prompt := promptText, imageData := fileToBase64 compressedFile,
                    generateAngles := false })
        | .err msg =>
            ({ s1 with error := some ("Image compression failed!, " ++ msg),
                       loading := false }, none)
      else
        (s1, some { prompt := promptText, imageData := fileToBase64 file,
                    generateAngles := false })

/-- Second half of `handleGenerateReference`: apply the awaited response to
the current state (store variations on success, record the error otherwise,
clear loading in the finally block). -/
def handleGenerateReferenceResume (response : GenerateHaircutsResponse)
    (s : HomeState) : HomeState :=
  if response.success = true ∧ response.variations.length > 0 then
    { s with results := response.variations, loading := false }
  else
    { s with error := some (jsOrElse response.message "Failed to generate reference image"),
             loading := false }

/-- First half of `handleGenerateAngles`: guard `!uploadedFile || !prompt`,
set anglesLoading / clear error, re-encode the currently-held file and issue
the request with generateAngles true and the retained prompt.  There is no
compression parameter: this path never invokes the compression engine. -/
def handleGenerateAnglesStart (s : HomeState) : HomeState × Option GenRequest :=
  match s.uploadedFile with
  | none => (s, none)
  | some file =>
      if s.prompt = "" then (s, none)
      else
        ({ s with anglesLoading := true, error := none },
         some { prompt := s.prompt, imageData := fileToBase64 file,
                generateAngles := true })

/-- Second half of `handleGenerateAngles`: append the returned variations to
the current result set on success, record the error otherwise, clear
anglesLoading in the finally block. -/
def handleGenerateAnglesResume (response : GenerateHaircutsResponse)
    (s : HomeState) : HomeState :=
  if response.success = true ∧ response.variations.length > 0 then
    { s with results := s.results ++ response.variations, anglesLoading := false }
  else
    { s with error := some (jsOrElse response.message "Failed to generate angle images"),
             anglesLoading := false }

/-- `results.some(r => r.angle === "front")` of the page. -/
def hasFrontResult (results : List ImageVariation) : Bool :=
  results.any (fun r => r.angle == "front")

/-- `results.some(r => r.angle === "side" || r.angle === "back")` of the page. -/
def hasAngles (results : List ImageVariation) : Bool :=
  results.any (fun r => r.angle == "side" || r.angle == "back")

inductive WorkflowState where
  | NoImage
  | ImageReady
  | GeneratingFront
  | FrontReady
  | GeneratingAngles
  | AnglesReady
  deriving DecidableEq, Repr

/-- Workflow state of the spec state machine, derived from the stored
component state via the loading flags and the two derived predicates of the
page. -/
def derivedState (s : HomeState) : WorkflowState :=
  match s.uploadedFile with
  | none => .NoImage
  | some _ =>
      if s.loading then .GeneratingFront
      else if s.anglesLoading then .GeneratingAngles
      else if hasAngles s.results then .AnglesReady
      else if hasFrontResult s.results then .FrontReady
      else .ImageReady

/-! Concrete sample data shared by counterexamples and witnesses. -/

def sampleFileA : FileData := { name := "a.jpg", content := "A64", size := 100 }

def sampleFileB : FileData := { name := "b.jpg", content := "B64", size := 200 }

def bigFile : FileData := { name := "big.jpg", content := "BIG64", size := 1000000 }

def smallFromBig : FileData := { name := "big.jpg", content := "SHRUNK64", size := 400000 }

/-- Compression oracle that always succeeds with `smallFromBig`. -/
def okCompress : FileData → ℚ → CompressOutcome := fun _ _ => .ok smallFromBig

/-- Compression oracle used where compression is never reached. -/
def idCompress : FileData → ℚ → CompressOutcome := fun f _ => .ok f

def frontVariation : ImageVariation := { image := "FRONTIMG", angle := "front" }

def frontOkResponse : GenerateHaircutsResponse :=
  { success := true, variations := [frontVariation], message := none }

def failResponse : GenerateHaircutsResponse :=
  { success := false, variations := [], message := none }

/-! ## Stale responses (C2) -/

/-- C2 counterexample: upload image A, start a front generation, upload a
different image B while the request is outstanding; when A's response
arrives it is NOT discarded — its variations populate the result set that
now belongs to B.  There is no image-identity check at response time. -/
theorem staleResponse_counterexample :
    (let s1 := handleImageUpload "data:A" sampleFileA initialHomeState
     let p1 := handleGenerateReferenceStart "fade" idCompress s1
     let s2 := handleImageUpload "data:B" sampleFileB p1.1
     let s3 := handleGenerateReferenceResume frontOkResponse s2
     s2.results = [] ∧
     s3.uploadedFile = some sampleFileB ∧
     s3.results = frontOkResponse.variations ∧
     s3.results ≠ []) := by
  decide

/-- C2 amended: a successful response is applied to whatever state is
current when it arrives — the resume step stores its variations
unconditionally, with no check that the held image still is the one the
request was made for. -/
theorem staleResponse_applied (s : HomeState) (response : GenerateHaircutsResponse)
    (hs : response.success = true) (hv : response.variations ≠ []) :
    (handleGenerateReferenceResume response s).results = response.variations := by
  have hlen : response.variations.length > 0 := List.length_pos.mpr hv
  simp [handleGenerateReferenceResume, hs, hlen]

/-- Witness for the amended C2 at a concrete state and response. -/
theorem staleResponse_applied_witness :
    frontOkResponse.success = true ∧ frontOkResponse.variations ≠ [] ∧
    (handleGenerateReferenceResume frontOkResponse initialHomeState).results =
      frontOkResponse.variations :=
  ⟨by decide, by decide,
   staleResponse_applied initialHomeState frontOkResponse (by decide) (by decide)⟩

/-! ## generateAngles before a successful front generation (C3) -/

/-- C3 counterexample: after a front generation that FAILED (the service
answered success false), the prompt set at the start of the front call is
still retained, so a generateAngles call is not a no-op — it changes state
and issues a request, even though no front generation ever completed
successfully. -/
theorem generateAngles_afterFailedFront_counterexample :
    (let s1 := handleImageUpload "data:A" sampleFileA initialHomeState
     let p1 := handleGenerateReferenceStart "fade" idCompress s1
     let s2 := handleGenerateReferenceResume failResponse p1.1
     let p2 := handleGenerateAnglesStart s2
     hasFrontResult s2.results = false ∧
     p2.2 ≠ none ∧
     p2.1 ≠ s2) := by
  decide

/-- C3 amended: generateAngles is a no-op (state unchanged, no request)
exactly when no image is held or the retained prompt is empty — which
covers every run in which no front generation was ever STARTED on the
current image (an upload resets the prompt), but not a run whose front
generation started and failed, since the prompt is stored before the
response is known. -/
theorem generateAngles_noop_without_image_or_prompt (s : HomeState)
    (h : s.uploadedFile = none ∨ s.prompt = "") :
    handleGenerateAnglesStart s = (s, none) := by
  rcases h with h | h
  · simp [handleGenerateAnglesStart, h]
  · unfold handleGenerateAnglesStart
    cases hf : s.uploadedFile with
    | none => rfl
    | some file => simp [h]

/-- Witness for the amended C3: just after an upload the prompt is empty,
so generateAngles is a no-op. -/
theorem generateAngles_noop_witness :
    ((handleImageUpload "data:A" sampleFileA initialHomeState).uploadedFile = none ∨
      (handleImageUpload "data:A" sampleFileA initialHomeState).prompt = "") ∧
    handleGenerateAnglesStart (handleImageUpload "data:A" sampleFileA initialHomeState) =
      (handleImageUpload "data:A" sampleFileA initialHomeState, none) :=
  ⟨Or.inr (by decide),
   generateAngles_noop_without_image_or_prompt _ (Or.inr (by decide))⟩

/-! ## Result-set shape after front then angles (C4) -/

/-- One full generation cycle: upload, front generation (start then resume
with the front response), angles generation (start then resume with the
angles response). -/
def runFrontThenAngles (url promptText : String) (file : FileData)
    (compress : FileData → ℚ → CompressOutcome)
    (respF respA : GenerateHaircutsResponse) (s : HomeState) : HomeState :=
  let s1 := handleImageUpload url file s
  let p1 := handleGenerateReferenceStart promptText compress s1
  let s2 := handleGenerateReferenceResume respF p1.1
  let p2 := handleGenerateAnglesStart s2
  handleGenerateAnglesResume respA p2.1

def sideVariation : ImageVariation := { image := "SIDEIMG", angle := "side" }

def backVariation : ImageVariation := { image := "BACKIMG", angle := "back" }

def sideOnlyResponse : GenerateHaircutsResponse :=
  { success := true, variations := [sideVariation], message := none }

def backOnlyResponse : GenerateHaircutsResponse :=
  { success := true, variations := [backVariation], message := none }

/-- C4 counterexample: the page stores the variations exactly as the service
tags them and never tags or filters itself, so a successful front generation
whose response is tagged side, followed by a successful angles generation
tagged back, reaches a state whose result set has NO front variation yet has
side/back variations — falsifying both the exactly-one-front conclusion and
the side/back-only-after-front invariant of the claim. -/
theorem resultSet_shape_counterexample :
    (let s3 := runFrontThenAngles "data:A" "fade" sampleFileA idCompress
       sideOnlyResponse backOnlyResponse initialHomeState
     hasFrontResult s3.results = false ∧
     hasAngles s3.results = true ∧
     (s3.results.filter (fun r => r.angle == "front")).length = 0) := by
  decide

/-- C4 amended: when the successful front response consists of exactly one
variation tagged front and the successful angles response is non-empty and
tagged only side or back — the shapes the external service is meant to
produce — the cycle ends with the front entry byte-for-byte first, exactly
one front variation, and at least one side/back variation.  For service
responses tagged otherwise the code offers no guarantee, since it stores the
service-provided tags unchanged. -/
theorem resultSet_front_then_angles_amended
    (s : HomeState) (url promptText : String) (file : FileData)
    (compress : FileData → ℚ → CompressOutcome)
    (vF : ImageVariation) (respF respA : GenerateHaircutsResponse)
    (hname : (endsWithStr (toLowerStr file.name) "heic" ||
              endsWithStr (toLowerStr file.name) "heif") = false)
    (hsize : ¬ file.size > MAX_SIZE_BYTES)
    (hp : promptText ≠ "")
    (hF : respF.success = true) (hFv : respF.variations = [vF])
    (hFa : vF.angle = "front")
    (hA : respA.success = true) (hAv : respA.variations ≠ [])
    (hAang : ∀ v ∈ respA.variations, v.angle = "side" ∨ v.angle = "back") :
    (runFrontThenAngles url promptText file compress respF respA s).results =
      vF :: respA.variations ∧
    ((runFrontThenAngles url promptText file compress respF respA s).results.filter
        (fun r => r.angle == "front")).length = 1 ∧
    hasAngles (runFrontThenAngles url promptText file compress respF respA s).results =
      true ∧
    (runFrontThenAngles url promptText file compress respF respA s).results.head? =
      some vF := by
  have hlenA : respA.variations.length > 0 := List.length_pos.mpr hAv
  have hres : (runFrontThenAngles url promptText file compress respF respA s).results =
      vF :: respA.variations := by
    unfold runFrontThenAngles
    simp [handleImageUpload, hname, handleGenerateReferenceStart, hsize,
      handleGenerateReferenceResume, hF, hFv, handleGenerateAnglesStart, hp,
      handleGenerateAnglesResume, hA, hlenA]
  refine ⟨hres, ?_, ?_, ?_⟩
  · rw [hres]
    have hvF : (vF.angle == "front") = true := by simp [hFa]
    have htail : respA.variations.filter (fun r => r.angle == "front") = [] := by
      rw [List.filter_eq_nil_iff]
      intro v hv
      rcases hAang v hv with h | h <;> simp [h]
    simp [List.filter, hvF, htail]
  · rw [hres]
    obtain ⟨v, hv⟩ := List.exists_mem_of_ne_nil respA.variations hAv
    have hpv : (v.angle == "side" || v.angle == "back") = true := by
      rcases hAang v hv with h | h <;> simp [h]
    unfold hasAngles
    exact List.any_eq_true.mpr ⟨v, List.mem_cons_of_mem _ hv, hpv⟩
  · rw [hres]; rfl

/-- Witness for the amended C4 at concrete inputs. -/
theorem resultSet_front_then_angles_amended_witness :
    ((endsWithStr (toLowerStr sampleFileA.name) "heic" ||
      endsWithStr (toLowerStr sampleFileA.name) "heif") = false ∧
     ¬ sampleFileA.size > MAX_SIZE_BYTES ∧ ("fade" : String) ≠ "" ∧
     frontOkResponse.success = true ∧
     frontOkResponse.variations = [frontVariation] ∧
     frontVariation.angle = "front" ∧
     backOnlyResponse.success = true ∧ backOnlyResponse.variations ≠ [] ∧
     (∀ v ∈ backOnlyResponse.variations, v.angle = "side" ∨ v.angle = "back")) ∧
    ((runFrontThenAngles "data:A" "fade" sampleFileA idCompress frontOkResponse
        backOnlyResponse initialHomeState).results =
      frontVariation :: backOnlyResponse.variations ∧
     ((runFrontThenAngles "data:A" "fade" sampleFileA idCompress frontOkResponse
        backOnlyResponse initialHomeState).results.filter
          (fun r => r.angle == "front")).length = 1 ∧
     hasAngles (runFrontThenAngles "data:A" "fade" sampleFileA idCompress frontOkResponse
        backOnlyResponse initialHomeState).results = true ∧
     (runFrontThenAngles "data:A" "fade" sampleFileA idCompress frontOkResponse
        backOnlyResponse initialHomeState).results.head? = some frontVariation) :=
  ⟨⟨by decide, by decide, by decide, by decide, by decide, by decide, by decide, by decide,
    by decide⟩,
   resultSet_front_then_angles_amended initialHomeState "data:A" "fade" sampleFileA
     idCompress frontVariation frontOkResponse backOnlyResponse
     (by decide) (by decide) (by decide) (by decide) (by decide) (by decide)
     (by decide) (by decide) (by decide)⟩

/-! ## Compression failure on the front path (C6) -/

/-- C6: when the held image exceeds the size threshold, the front path
consults the compression engine with budget threshold times 0.9 before any
network activity; when that call throws, the whole call aborts with the
error recorded, no request issued, and the workflow back in ImageReady. -/
theorem generateReference_compressionFailure_aborts
    (s : HomeState) (file : FileData) (promptText msg : String)
    (compress : FileData → ℚ → CompressOutcome)
    (hfile : s.uploadedFile = some file)
    (hsize : file.size > MAX_SIZE_BYTES)
    (hcomp : compress file ((MAX_SIZE_BYTES : ℚ) * (9/10)) = .err msg)
    (hres : s.results = []) (hangles : s.anglesLoading = false) :
    (handleGenerateReferenceStart promptText compress s).2 = none ∧
    (handleGenerateReferenceStart promptText compress s).1.error =
      some ("Image compression failed!, " ++ msg) ∧
    (handleGenerateReferenceStart promptText compress s).1.loading = false ∧
    derivedState (handleGenerateReferenceStart promptText compress s).1 =
      .ImageReady := by
  unfold handleGenerateReferenceStart
  rw [hfile]
  simp only [hsize, if_pos, hcomp]
  refine ⟨trivial, trivial, trivial, ?_⟩
  simp [derivedState, hfile, hangles, hres, hasAngles, hasFrontResult]

/-- Witness for C6: a 1 MB file over the 0.5 MB threshold and a compression
oracle that throws. -/
theorem generateReference_compressionFailure_aborts_witness :
    ((handleImageUpload "data:big" bigFile initialHomeState).uploadedFile = some bigFile ∧
     bigFile.size > MAX_SIZE_BYTES ∧
     (fun (_ : FileData) (_ : ℚ) => CompressOutcome.err "no canvas") bigFile
       ((MAX_SIZE_BYTES : ℚ) * (9/10)) = .err "no canvas" ∧
     (handleImageUpload "data:big" bigFile initialHomeState).results = [] ∧
     (handleImageUpload "data:big" bigFile initialHomeState).anglesLoading = false) ∧
    ((handleGenerateReferenceStart "fade" (fun _ _ => CompressOutcome.err "no canvas")
        (handleImageUpload "data:big" bigFile initialHomeState)).2 = none ∧
     (handleGenerateReferenceStart "fade" (fun _ _ => CompressOutcome.err "no canvas")
        (handleImageUpload "data:big" bigFile initialHomeState)).1.error =
          some ("Image compression failed!, " ++ "no canvas") ∧
     (handleGenerateReferenceStart "fade" (fun _ _ => CompressOutcome.err "no canvas")
        (handleImageUpload "data:big" bigFile initialHomeState)).1.loading = false ∧
     derivedState (handleGenerateReferenceStart "fade"
        (fun _ _ => CompressOutcome.err "no canvas")
        (handleImageUpload "data:big" bigFile initialHomeState)).1 = .ImageReady) :=
  ⟨⟨by decide, by decide, rfl, by decide, by decide⟩,
   generateReference_compressionFailure_aborts
     (handleImageUpload "data:big" bigFile initialHomeState) bigFile "fade" "no canvas"
     (fun _ _ => CompressOutcome.err "no canvas")
     (by decide) (by decide) rfl (by decide) (by decide)⟩

/-! ## Failed front generation (C7) -/

/-- Failing response whose service message is present but empty. -/
def emptyMsgFailResponse : GenerateHaircutsResponse :=
  { success := false, variations := [], message := some "" }

/-- C7 counterexample: a generateFront whose response reports success false
does NOT leave the result set empty when an earlier front generation had
succeeded — the stale results are kept and the workflow sits in FrontReady,
not ImageReady; moreover a service message that is present but empty is NOT
used as the recorded error — the generic fallback is recorded instead. -/
theorem generateReference_failure_counterexample :
    (let s1 := handleImageUpload "data:A" sampleFileA initialHomeState
     let p1 := handleGenerateReferenceStart "fade" idCompress s1
     let s2 := handleGenerateReferenceResume frontOkResponse p1.1
     let p2 := handleGenerateReferenceStart "fade" idCompress s2
     let s3 := handleGenerateReferenceResume failResponse p2.1
     failResponse.success = false ∧
     s3.results ≠ [] ∧
     derivedState s3 = .FrontReady) ∧
    (let s1 := handleImageUpload "data:A" sampleFileA initialHomeState
     let p1 := handleGenerateReferenceStart "fade" idCompress s1
     let s2 := handleGenerateReferenceResume emptyMsgFailResponse p1.1
     emptyMsgFailResponse.success = false ∧
     emptyMsgFailResponse.message = some "" ∧
     s2.error = some "Failed to generate reference image" ∧
     s2.error ≠ emptyMsgFailResponse.message) := by
  decide

/-- C7 amended: a success-false response leaves the result set UNCHANGED
(hence empty exactly when it was empty at call time, as on the first attempt
after an upload, in which case the workflow is back in ImageReady), and the
recorded error equals the service message when present and non-empty, with a
generic fallback otherwise. -/
theorem generateReference_failure_amended (s : HomeState)
    (response : GenerateHaircutsResponse) (hfail : response.success = false) :
    (handleGenerateReferenceResume response s).results = s.results ∧
    (handleGenerateReferenceResume response s).loading = false ∧
    (∀ m, response.message = some m → m ≠ "" →
      (handleGenerateReferenceResume response s).error = some m) ∧
    (response.message = none →
      (handleGenerateReferenceResume response s).error =
        some "Failed to generate reference image") ∧
    (response.message = some "" →
      (handleGenerateReferenceResume response s).error =
        some "Failed to generate reference image") ∧
    (s.results = [] → s.uploadedFile ≠ none → s.anglesLoading = false →
      derivedState (handleGenerateReferenceResume response s) = .ImageReady) := by
  have hcond : ¬ (response.success = true ∧ response.variations.length > 0) := by
    rintro ⟨h1, -⟩
    rw [hfail] at h1
    exact Bool.false_ne_true h1
  unfold handleGenerateReferenceResume
  rw [if_neg hcond]
  refine ⟨rfl, rfl, ?_, ?_, ?_, ?_⟩
  · intro m hm hne
    simp [jsOrElse, hm, hne]
  · intro hm
    simp [jsOrElse, hm]
  · intro hm
    simp [jsOrElse, hm]
  · intro hres hfile hangles
    obtain ⟨f, hf⟩ := Option.ne_none_iff_exists'.mp hfile
    simp [derivedState, hf, hangles, hres, hasAngles, hasFrontResult]

/-- Witness for the amended C7: the first front attempt after an upload
fails with no service message, and a second application of the theorem at a
failing response whose message is present but empty. -/
theorem generateReference_failure_amended_witness :
    failResponse.success = false ∧ emptyMsgFailResponse.success = false ∧
    (let s2 := (handleGenerateReferenceStart "fade" idCompress
        (handleImageUpload "data:A" sampleFileA initialHomeState)).1
     (handleGenerateReferenceResume failResponse s2).results = s2.results ∧
     (handleGenerateReferenceResume failResponse s2).loading = false ∧
     (failResponse.message = none →
       (handleGenerateReferenceResume failResponse s2).error =
         some "Failed to generate reference image") ∧
     (emptyMsgFailResponse.message = some "" →
       (handleGenerateReferenceResume emptyMsgFailResponse s2).error =
         some "Failed to generate reference image") ∧
     (s2.results = [] → s2.uploadedFile ≠ none → s2.anglesLoading = false →
       derivedState (handleGenerateReferenceResume failResponse s2) = .ImageReady)) :=
  ⟨by decide, by decide,
   ⟨(generateReference_failure_amended
       (handleGenerateReferenceStart "fade" idCompress
         (handleImageUpload "data:A" sampleFileA initialHomeState)).1
       failResponse (by decide)).1,
    (generateReference_failure_amended
       (handleGenerateReferenceStart "fade" idCompress
         (handleImageUpload "data:A" sampleFileA initialHomeState)).1
       failResponse (by decide)).2.1,
    (generateReference_failure_amended
       (handleGenerateReferenceStart "fade" idCompress
         (handleImageUpload "data:A" sampleFileA initialHomeState)).1
       failResponse (by decide)).2.2.2.1,
    (generateReference_failure_amended
       (handleGenerateReferenceStart "fade" idCompress
         (handleImageUpload "data:A" sampleFileA initialHomeState)).1
       emptyMsgFailResponse (by decide)).2.2.2.2.1,
    (generateReference_failure_amended
       (handleGenerateReferenceStart "fade" idCompress
         (handleImageUpload "data:A" sampleFileA initialHomeState)).1
       failResponse (by decide)).2.2.2.2.2⟩⟩

/-! ## HEIC/HEIF rejection and upload reset (C8, C10) -/

/-- C8: a file whose name ends in heic or heif in any letter casing is
rejected — the unsupported-format error is recorded and the image is not
accepted (the held image and every other field are untouched); any other
file is accepted with the result set, prompt and error reset before the
workflow reaches ImageReady with the new image. -/
theorem uploadImage_heic_rejected_or_reset (s : HomeState) (url : String)
    (file : FileData) :
    ((endsWithStr (toLowerStr file.name) "heic" ||
      endsWithStr (toLowerStr file.name) "heif") = true →
      handleImageUpload url file s = { s with error := some heicErrorMsg }) ∧
    ((endsWithStr (toLowerStr file.name) "heic" ||
      endsWithStr (toLowerStr file.name) "heif") = false →
      handleImageUpload url file s =
        { s with uploadedImage := some url, uploadedFile := some file,
                 results := [], error := none, prompt := "" }) := by
  constructor <;> intro h <;> simp [handleImageUpload, h]

def heicFile : FileData := { name := "selfie.HeIc", content := "H64", size := 10 }

/-- Witness for C8: a mixed-case .HeIc name is rejected and a .jpg name is
accepted with the reset. -/
theorem uploadImage_heic_rejected_or_reset_witness :
    ((endsWithStr (toLowerStr heicFile.name) "heic" ||
      endsWithStr (toLowerStr heicFile.name) "heif") = true ∧
     handleImageUpload "data:H" heicFile initialHomeState =
       { initialHomeState with error := some heicErrorMsg }) ∧
    ((endsWithStr (toLowerStr sampleFileA.name) "heic" ||
      endsWithStr (toLowerStr sampleFileA.name) "heif") = false ∧
     handleImageUpload "data:A" sampleFileA initialHomeState =
       { initialHomeState with uploadedImage := some "data:A",
                               uploadedFile := some sampleFileA,
                               results := [], error := none, prompt := "" }) :=
  ⟨⟨by decide,
    (uploadImage_heic_rejected_or_reset initialHomeState "data:H" heicFile).1 (by decide)⟩,
   ⟨by decide,
    (uploadImage_heic_rejected_or_reset initialHomeState "data:A" sampleFileA).2 (by decide)⟩⟩

/-- C10: when an image is already accepted, an upload attempt of a
HEIC/HEIF-named file changes only the current error message — the held
image, its result set, the retained prompt and the loading flags are left
exactly as they were. -/
theorem uploadImage_heic_frame (s : HomeState) (url : String) (file : FileData)
    (hheic : (endsWithStr (toLowerStr file.name) "heic" ||
              endsWithStr (toLowerStr file.name) "heif") = true) :
    (handleImageUpload url file s).uploadedImage = s.uploadedImage ∧
    (handleImageUpload url file s).uploadedFile = s.uploadedFile ∧
    (handleImageUpload url file s).results = s.results ∧
    (handleImageUpload url file s).prompt = s.prompt ∧
    (handleImageUpload url file s).loading = s.loading ∧
    (handleImageUpload url file s).anglesLoading = s.anglesLoading ∧
    (handleImageUpload url file s).error =
      some heicErrorMsg := by
  simp [handleImageUpload, hheic]

/-- State with an accepted image, a front result, a retained prompt and an
old error, used to witness C10. -/
def richState : HomeState :=
  { uploadedImage := some "data:A", uploadedFile := some sampleFileA,
    results := [frontVariation], loading := false, anglesLoading := false,
    error := some "old error", prompt := "fade" }

/-- Witness for C10 at a state holding an accepted image with results. -/
theorem uploadImage_heic_frame_witness :
    ((endsWithStr (toLowerStr heicFile.name) "heic" ||
      endsWithStr (toLowerStr heicFile.name) "heif") = true) ∧
    ((handleImageUpload "data:H" heicFile richState).uploadedImage =
        richState.uploadedImage ∧
     (handleImageUpload "data:H" heicFile richState).uploadedFile =
        richState.uploadedFile ∧
     (handleImageUpload "data:H" heicFile richState).results = richState.results ∧
     (handleImageUpload "data:H" heicFile richState).prompt = richState.prompt ∧
     (handleImageUpload "data:H" heicFile richState).loading = richState.loading ∧
     (handleImageUpload "data:H" heicFile richState).anglesLoading =
        richState.anglesLoading ∧
     (handleImageUpload "data:H" heicFile richState).error =
        some heicErrorMsg) :=
  ⟨by decide, uploadImage_heic_frame richState "data:H" heicFile (by decide)⟩

/-! ## Lifecycle of the compressed image (C9) -/

/-- C9 counterexample: the front path stores the compressed file into the
held-image state (setUploadedFile), so it is NOT discarded after transport
encoding: a later generateAngles attempt re-encodes the compressed bytes,
not the original source bytes. -/
theorem compressedReuse_counterexample :
    (let s1 := handleImageUpload "data:big" bigFile initialHomeState
     let p1 := handleGenerateReferenceStart "fade" okCompress s1
     let s2 := handleGenerateReferenceResume frontOkResponse p1.1
     let p2 := handleGenerateAnglesStart s2
     p1.2 = some { prompt := "fade", imageData := fileToBase64 smallFromBig,
                   generateAngles := false } ∧
     s2.uploadedFile = some smallFromBig ∧
     p2.2 = some { prompt := "fade", imageData := fileToBase64 smallFromBig,
                   generateAngles := true } ∧
     fileToBase64 smallFromBig ≠ fileToBase64 bigFile) := by
  decide

/-- C9 amended: when the front path compresses, the compressed file both
feeds that attempt's transport encoding and REPLACES the held image, so
later attempts reuse it; the generateAngles path re-encodes whatever image
is currently held and never invokes the compression engine (it has no
compression parameter at all). -/
theorem compressedImage_retained_amended (s : HomeState) (file cf : FileData)
    (promptText : String) (compress : FileData → ℚ → CompressOutcome)
    (hfile : s.uploadedFile = some file) (hsize : file.size > MAX_SIZE_BYTES)
    (hc : compress file ((MAX_SIZE_BYTES : ℚ) * (9/10)) = .ok cf) :
    (handleGenerateReferenceStart promptText compress s).1.uploadedFile = some cf ∧
    (handleGenerateReferenceStart promptText compress s).2 =
      some { prompt := promptText, imageData := fileToBase64 cf,
             generateAngles := false } ∧
    (∀ (t : HomeState) (g : FileData), t.uploadedFile = some g → t.prompt ≠ "" →
      (handleGenerateAnglesStart t).2 =
        some { prompt := t.prompt, imageData := fileToBase64 g,
               generateAngles := true }) := by
  refine ⟨?_, ?_, ?_⟩
  · unfold handleGenerateReferenceStart
    rw [hfile]
    simp [hsize, hc]
  · unfold handleGenerateReferenceStart
    rw [hfile]
    simp [hsize, hc]
  · intro t g ht hp
    unfold handleGenerateAnglesStart
    rw [ht]
    simp [hp]

/-- Witness for the amended C9: the compressed file replaces the 1 MB
original and the next angles request encodes the compressed bytes. -/
theorem compressedImage_retained_amended_witness :
    ((handleImageUpload "data:big" bigFile initialHomeState).uploadedFile =
        some bigFile ∧
     bigFile.size > MAX_SIZE_BYTES ∧
     okCompress bigFile ((MAX_SIZE_BYTES : ℚ) * (9/10)) = .ok smallFromBig) ∧
    ((handleGenerateReferenceStart "fade" okCompress
        (handleImageUpload "data:big" bigFile initialHomeState)).1.uploadedFile =
          some smallFromBig ∧
     (handleGenerateReferenceStart "fade" okCompress
        (handleImageUpload "data:big" bigFile initialHomeState)).2 =
          some { prompt := "fade", imageData := fileToBase64 smallFromBig,
                 generateAngles := false } ∧
     (handleGenerateAnglesStart richState).2 =
        some { prompt := richState.prompt, imageData := fileToBase64 sampleFileA,
               generateAngles := true }) :=
  ⟨⟨by decide, by decide, rfl⟩,
   ⟨(compressedImage_retained_amended
       (handleImageUpload "data:big" bigFile initialHomeState) bigFile smallFromBig
       "fade" okCompress (by decide) (by decide) rfl).1,
    (compressedImage_retained_amended
       (handleImageUpload "data:big" bigFile initialHomeState) bigFile smallFromBig
       "fade" okCompress (by decide) (by decide) rfl).2.1,
    (compressedImage_retained_amended
       (handleImageUpload "data:big" bigFile initialHomeState) bigFile smallFromBig
       "fade" okCompress (by decide) (by decide) rfl).2.2 richState sampleFileA
       (by decide) (by decide)⟩⟩

end HelpMyBarber
